import Mathlib

/-!
Verification of the agent-sandbox lifecycle controller of the
`bizmatters/zerotouch-platform` repository.

The repository snapshot carries the controller's test suites
(`platform/apis/agentsandbox/tests`) but not the Crossplane composition file
(`agentsandbox-composition.yaml`) nor the TTL controller binary they exercise.
The definitions below are therefore shallow models of those missing parts,
written from the natural-language specification and from the concrete
constants that the repository's own tests pin down (resource names, secret
slots, trigger metadata, security-context fields, S3 key layout).
-/

namespace ZeroTouch

/-- A container env-from secret reference: the referenced secret's name and
whether the reference is marked optional. -/
structure SecretRef where
  name : String
  optional : Bool
deriving Repr, DecidableEq

/-- NATS broker binding of a claim: url, stream and consumer. -/
structure NatsSpec where
  url : String
  stream : String
  consumer : String
deriving Repr, DecidableEq

/-- Modelled from the spec: the user-facing AgentSandboxService claim
(`spec.md` section 3): image, size class, broker binding, optional http
exposure, up to five optional user secret references, storage size in GB.
Identity is (name, namespace); `nspace` models `metadata.namespace`
(`namespace` is a Lean keyword). -/
structure Claim where
  name : String
  nspace : String
  image : String
  size : String
  nats : NatsSpec
  httpPort : Option Nat
  healthPath : Option String
  readyPath : Option String
  sessionAffinity : Option String
  secret1Name : Option String
  secret2Name : Option String
  secret3Name : Option String
  secret4Name : Option String
  secret5Name : Option String
  storageGB : Nat
deriving Repr, DecidableEq

/-- The fixed platform secret every sandbox container references; it holds the
object-storage credentials (test_07 checks for `aws-access-token`). -/
def platformSecretName : String := "aws-access-token"

/-- The five user secret slots of a claim, in slot order secret1..secret5. -/
def userSecretSlots (c : Claim) : List (Option String) :=
  [c.secret1Name, c.secret2Name, c.secret3Name, c.secret4Name, c.secret5Name]

/-- The set user secrets of a claim, in slot order, unset slots skipped. -/
def setUserSecrets (c : Claim) : List String :=
  (userSecretSlots c).filterMap id

/-- Modelled from the spec: the Secret Composer (`spec.md` section 4.2; the
composition file that implements it is not in the snapshot). It renders the
main container's env-from list: each set user secret in slot order as an
optional reference, then the required platform secret last. -/
def composeEnvFrom (c : Claim) : List SecretRef :=
  (setUserSecrets c).map (fun n => { name := n, optional := true })
    ++ [{ name := platformSecretName, optional := false }]

/-- Deletion policy of a rendered resource, the tagged variant the spec's
design notes call for (`Delete` reclaims the backing storage on cascade). -/
inductive DeletionPolicy where
  | Delete
  | Retain
deriving Repr, DecidableEq

/-- A rendered PersistentVolumeClaim: name, storage request string and
deletion policy. -/
structure PVCSpec where
  name : String
  storageRequest : String
  deletionPolicy : DeletionPolicy
deriving Repr, DecidableEq

/-- Modelled from the spec: the PVC rendering of the Resource Composer
(`spec.md` section 4.3; the composition file is not in the snapshot).
Name `<claim>-workspace` (test_04), request `<storageGB>Gi`, deletion policy
`Delete` (test_10_1). -/
def composePVC (c : Claim) : PVCSpec :=
  { name := c.name ++ "-workspace"
    storageRequest := toString c.storageGB ++ "Gi"
    deletionPolicy := .Delete }

/-- A rendered Kubernetes Service for the sandbox's http exposure. -/
structure ServiceSpec where
  name : String
  type : String
  ports : List Nat
  sessionAffinity : String
  selector : List (String × String)
  annotations : List (String × String)
deriving Repr, DecidableEq

/-- Modelled from the spec: the conditional Service rendering of the Resource
Composer (`spec.md` section 4.3; the composition file is not in the snapshot).
A Service exists iff `httpPort` is set; it is named `<claim>-http` (test_06),
type ClusterIP, single port, sessionAffinity defaulting to None, pod selector
on the claim name, and scrape-metrics annotations. -/
def composeService (c : Claim) : Option ServiceSpec :=
  c.httpPort.map (fun p =>
    { name := c.name ++ "-http"
      type := "ClusterIP"
      ports := [p]
      sessionAffinity := c.sessionAffinity.getD "None"
      selector := [("app.kubernetes.io/name", c.name)]
      annotations :=
        [("prometheus.io/port", toString p), ("prometheus.io/scrape", "true")] })

/-- The scale-target reference of a ScaledObject. -/
structure ScaleTargetRef where
  apiVersion : String
  kind : String
  name : String
deriving Repr, DecidableEq

/-- Metadata of a nats-jetstream autoscaling trigger. -/
structure TriggerMeta where
  stream : String
  consumer : String
deriving Repr, DecidableEq

/-- An autoscaling trigger: its type and its metadata. -/
structure Trigger where
  type : String
  metadata : TriggerMeta
deriving Repr, DecidableEq

/-- A rendered KEDA ScaledObject. -/
structure ScaledObjectSpec where
  name : String
  scaleTargetRef : ScaleTargetRef
  triggers : List Trigger
  minReplicaCount : Nat
  maxReplicaCount : Nat
deriving Repr, DecidableEq

/-- Modelled from the spec: the Warm Pool Scaler Binding (`spec.md` section
4.5; the composition file is not in the snapshot). One ScaledObject per claim,
named `<claim>-scaler`, targeting the claim's SandboxWarmPool, with a single
nats-jetstream trigger and replica bounds 0..1 (test_05, test_10_1). -/
def composeScaledObject (c : Claim) : ScaledObjectSpec :=
  { name := c.name ++ "-scaler"
    scaleTargetRef :=
      { apiVersion := "extensions.agents.x-k8s.io/v1alpha1"
        kind := "SandboxWarmPool"
        name := c.name }
    triggers :=
      [{ type := "nats-jetstream"
         metadata := { stream := c.nats.stream, consumer := c.nats.consumer } }]
    minReplicaCount := 0
    maxReplicaCount := 1 }

/-- The rendered connection secret: its name and its key/value data. -/
structure ConnSecret where
  name : String
  data : List (String × String)
deriving Repr, DecidableEq

/-- Modelled from the spec: the connection secret rendering (`spec.md`
sections 4.3 and 6; the composition file is not in the snapshot). Named
`<claim>-conn`, carrying exactly the keys SANDBOX_SERVICE_NAME (the claim
name, test_07), SANDBOX_HTTP_ENDPOINT (`http://<svc>.<ns>.svc:<port>`) and
SANDBOX_NAMESPACE. -/
def composeConnSecret (c : Claim) : ConnSecret :=
  { name := c.name ++ "-conn"
    data :=
      [("SANDBOX_SERVICE_NAME", c.name),
       ("SANDBOX_HTTP_ENDPOINT",
         "http://" ++ c.name ++ "." ++ c.nspace ++ ".svc" ++
           (match c.httpPort with
            | some p => ":" ++ toString p
            | none => "")),
       ("SANDBOX_NAMESPACE", c.nspace)] }

/-- Security context of one container, the fields the composition sets. -/
structure ContainerSec where
  runAsNonRoot : Bool
  runAsUser : Nat
  allowPrivilegeEscalation : Bool
  capabilitiesDrop : List String
deriving Repr, DecidableEq

/-- Pod-level security context, the fields the composition sets. -/
structure PodSecurity where
  runAsNonRoot : Bool
  runAsUser : Nat
  runAsGroup : Nat
  fsGroup : Nat
deriving Repr, DecidableEq

/-- The security-relevant shape of the rendered pod template: pod-level
context plus the contexts of the hydration init container, the main workload
container and the backup sidecar. -/
structure PodTemplateSec where
  podSecurity : PodSecurity
  initSec : ContainerSec
  mainSec : ContainerSec
  sidecarSec : ContainerSec
deriving Repr, DecidableEq

/-- Modelled from the spec: the security contexts the composition file fixes
on the rendered pod template (the composition file is not in the snapshot;
the fields are the ones its test `test_10_1_composition_hibernation.py`
asserts). Every level runs as root with privilege escalation allowed and no
dropped capabilities. -/
def composePodSec (_c : Claim) : PodTemplateSec :=
  let rootContainer : ContainerSec :=
    { runAsNonRoot := false
      runAsUser := 0
      allowPrivilegeEscalation := true
      capabilitiesDrop := [] }
  { podSecurity :=
      { runAsNonRoot := false, runAsUser := 0, runAsGroup := 0, fsGroup := 0 }
    initSec := rootContainer
    mainSec := rootContainer
    sidecarSec := rootContainer }

/-- The Composite Resource Set derived 1:1 from a claim (`spec.md` section 3):
SandboxTemplate, SandboxWarmPool, PVC, optional Service, ServiceAccount,
ScaledObject and connection secret. -/
structure CompositeResourceSet where
  sandboxTemplateName : String
  warmPoolName : String
  pvc : PVCSpec
  service : Option ServiceSpec
  serviceAccountName : String
  scaledObject : ScaledObjectSpec
  connSecret : ConnSecret
  podSec : PodTemplateSec
deriving Repr, DecidableEq

/-- Modelled from the spec: the Resource Composer (`spec.md` section 4.3; the
composition file is not in the snapshot), a pure function from a claim to its
Composite Resource Set. SandboxTemplate, SandboxWarmPool and ServiceAccount
take the claim's name (test_05, test_07); the other resources take the claim's
name with a fixed suffix. -/
def compose (c : Claim) : CompositeResourceSet :=
  { sandboxTemplateName := c.name
    warmPoolName := c.name
    pvc := composePVC c
    service := composeService c
    serviceAccountName := c.name
    scaledObject := composeScaledObject c
    connSecret := composeConnSecret c
    podSec := composePodSec c }

/-- Modelled from the spec: composition refuses to render a PVC whose storage
request is outside the platform's allowed GB range (`spec.md` section 4.3,
error conditions); within the range it renders the full set. -/
def composeChecked (minGB maxGB : Nat) (c : Claim) : Option CompositeResourceSet :=
  if minGB ≤ c.storageGB ∧ c.storageGB ≤ maxGB then some (compose c) else none

/-! ### Workspace persistence pipeline -/

/-- A workspace volume: an association list from relative path to file
content; the first binding of a path is its current content. -/
abbrev Workspace := List (String × String)

/-- Read the file at path `p` of a workspace. -/
def readFile (w : Workspace) (p : String) : Option String :=
  (w.find? (fun e => e.1 == p)).map Prod.snd

/-- Write content `c` to the file at path `p` of a workspace (overwrite). -/
def writeFile (w : Workspace) (p c : String) : Workspace :=
  (p, c) :: w

/-- Modelled from the spec: extraction of an archive into a volume with
tar-style overwrite semantics (`spec.md` section 4.4): every file of the
archive lands with its archived content, files not in the archive are left
untouched. -/
def extractInto (archive vol : Workspace) : Workspace :=
  archive ++ vol

/-- Modelled from the spec: the hydration step of the Workspace Persistence
Pipeline (`spec.md` section 4.4; the init container's script is not in the
snapshot): if a backup object exists in object storage, download and extract
it into the volume; if absent, leave the volume as-is. -/
def hydrate (backupObject : Option Workspace) (vol : Workspace) : Workspace :=
  match backupObject with
  | some a => extractInto a vol
  | none => vol

/-- Object storage as seen by one claim: the optional backup object stored at
the claim's conventional key `workspaces/<claim>/workspace.tar.gz`. -/
structure ObjectStore where
  backupObject : Option Workspace
deriving Repr, DecidableEq

/-- The conventional object-storage key of a claim's backup
(conftest `_write_s3_data`). -/
def backupKey (claimName : String) : String :=
  "workspaces/" ++ claimName ++ "/workspace.tar.gz"

/-- Durable state of one sandbox claim across pod lifecycles: the mounted
workspace volume and the claim's slot of object storage. -/
structure PodState where
  workspace : Workspace
  store : ObjectStore
deriving Repr, DecidableEq

/-- Modelled from the spec: a backup pass (sidecar cycle or preStop final
sync, `spec.md` section 4.4): archive the workspace directory and upload it to
object storage under the claim's key, overwriting the previous backup. -/
def backupPass (s : PodState) : PodState :=
  { s with store := { backupObject := some s.workspace } }

/-- Modelled from the spec: deleting the pod runs the preStop final-sync
backup before the container terminates; through a Cold cycle the PVC is also
reclaimed, so the volume's contents are gone and only the backup object
remains. -/
def deletePod (s : PodState) : PodState :=
  { workspace := [], store := (backupPass s).store }

/-- Modelled from the spec: recreating the pod runs the hydration init
container to completion over the mounted volume before the main container
starts. -/
def recreatePod (s : PodState) : PodState :=
  { s with workspace := hydrate s.store.backupObject s.workspace }

/-- One full recreation cycle: pod deletion (with final sync) followed by
recreation (with hydration). -/
def recreateCycle (s : PodState) : PodState :=
  recreatePod (deletePod s)

/-- Startup phase of a sandbox pod: created, init container finished, main
container running. -/
inductive PodPhase where
  | created
  | hydrated
  | running
deriving Repr, DecidableEq

/-- A starting pod: its phase and its mounted workspace volume. -/
structure StartingPod where
  phase : PodPhase
  vol : Workspace
deriving Repr, DecidableEq

/-- Modelled from the spec: the hydration init container runs over the
mounted volume and completes, moving the pod to the `hydrated` phase. -/
def runInitContainer (backupObject : Option Workspace) (p : StartingPod) : StartingPod :=
  { phase := .hydrated, vol := hydrate backupObject p.vol }

/-- Modelled from the spec: the main container starts only once the init
container has run to completion (`spec.md` section 4.4); on a pod still in the
`created` phase it cannot start. -/
def startMain (p : StartingPod) : Option StartingPod :=
  if p.phase = PodPhase.hydrated then some { p with phase := .running } else none

/-! ### Hibernation state machine -/

/-- The live cluster facts from which the hibernation classification is
derived (`spec.md` section 3): claim existence, warm-pool replica count, PVC
existence. -/
structure ClusterState where
  claimExists : Bool
  replicas : Nat
  pvcExists : Bool
deriving Repr, DecidableEq

/-- Active classification: claim exists and pool replicas are at least 1. -/
def isActive (s : ClusterState) : Prop :=
  s.claimExists = true ∧ 1 ≤ s.replicas

/-- Warm classification: claim exists, pool replicas are 0, PVC exists. -/
def isWarm (s : ClusterState) : Prop :=
  s.claimExists = true ∧ s.replicas = 0 ∧ s.pvcExists = true

/-- Cold classification: claim and PVC are both absent. -/
def isCold (s : ClusterState) : Prop :=
  s.claimExists = false ∧ s.pvcExists = false

instance (s : ClusterState) : Decidable (isActive s) := by
  unfold isActive; infer_instance

instance (s : ClusterState) : Decidable (isWarm s) := by
  unfold isWarm; infer_instance

instance (s : ClusterState) : Decidable (isCold s) := by
  unfold isCold; infer_instance

/-- The transitions the hibernation state machine and the autoscaler issue
(`spec.md` section 4.6). -/
inductive Transition where
  | softExpire
  | hardExpire
  | scaleUp
deriving Repr, DecidableEq

/-- Modelled from the spec: effect of each transition on the cluster state
(`spec.md` section 4.6; the TTL controller binary is not in the snapshot).
Soft expiry scales the pool to 0 and retains the PVC; hard expiry deletes the
claim and — via owner references and the PVC deletion policy, within the
transition timeout — the PVC; warm resurrection scales the pool back to 1. -/
def applyTransition : Transition → ClusterState → ClusterState
  | .softExpire, s => { s with replicas := 0 }
  | .hardExpire, _ => { claimExists := false, replicas := 0, pvcExists := false }
  | .scaleUp, s => { s with replicas := 1 }

/-! ### Concrete sample claims used by witnesses -/

/-- The spec's end-to-end example claim: `acme` with storageGB 10, secret1
`db`, secret3 `llm`, no http exposure. -/
def acmeClaim : Claim :=
  { name := "acme"
    nspace := "intelligence-deepagents"
    image := "ghcr.io/bizmatters/deepagents-runtime:latest"
    size := "micro"
    nats := { url := "nats://nats-headless.nats.svc.cluster.local:4222"
              stream := "AGENT_EXECUTION"
              consumer := "acme-consumer" }
    httpPort := none
    healthPath := none
    readyPath := none
    sessionAffinity := none
    secret1Name := some "db"
    secret2Name := none
    secret3Name := some "llm"
    secret4Name := none
    secret5Name := none
    storageGB := 10 }

/-- The http test claim of `test_06_verify_http.py`: port 8080, ClientIP
session affinity. -/
def httpClaim : Claim :=
  { name := "test-http-sandbox"
    nspace := "intelligence-deepagents"
    image := "ghcr.io/arun4infra/deepagents-runtime:sha-9d6cb0e"
    size := "micro"
    nats := { url := "nats://nats-headless.nats.svc.cluster.local:4222"
              stream := "TEST_HTTP_STREAM"
              consumer := "test-http-consumer" }
    httpPort := some 8080
    healthPath := some "/health"
    readyPath := some "/ready"
    sessionAffinity := some "ClientIP"
    secret1Name := none
    secret2Name := none
    secret3Name := none
    secret4Name := none
    secret5Name := none
    storageGB := 5 }

/-- A re-created twin of `acmeClaim`: same identity (name, namespace) and
http exposure, different image, size and secrets — as after a Cold-cycle
resurrection with an updated spec. -/
def acmeClaimRecreated : Claim :=
  { acmeClaim with
    image := "ghcr.io/bizmatters/deepagents-runtime:v2"
    size := "large"
    secret1Name := some "db-v2"
    secret3Name := none
    storageGB := 25 }

/-! ### Helper lemmas -/

/-- Reading a path found in the left part of an appended workspace gives the
left part's content. -/
theorem readFile_append_of_some {a : Workspace} {p c : String}
    (h : readFile a p = some c) (vol : Workspace) :
    readFile (a ++ vol) p = some c := by
  induction a with
  | nil => simp [readFile] at h
  | cons e t ih =>
    unfold readFile at h ⊢
    rcases he : (e.1 == p) with _ | _
    · simp only [List.cons_append, List.find?, he] at h ⊢
      exact ih h
    · simp only [List.cons_append, List.find?, he] at h ⊢
      exact h

/-- A full recreation cycle restores the workspace volume exactly: the preStop
final sync uploads the whole workspace, the PVC is reclaimed, and hydration
extracts the backup into the fresh volume. -/
theorem recreateCycle_workspace (s : PodState) :
    (recreateCycle s).workspace = s.workspace := by
  simp [recreateCycle, recreatePod, deletePod, backupPass, hydrate, extractInto]

/-- Reading back a freshly written file gives the written content. -/
theorem readFile_writeFile (w : Workspace) (p c : String) :
    readFile (writeFile w p c) p = some c := by
  simp [readFile, writeFile, List.find?]

/-! ### Claim C1 — secret ordering -/

/-- C1: for every claim, the rendered env-source list has length
`count(set user secrets) + 1`; the user secrets occupy the leading indices in
secret1..secret5 order (skipping unset slots), each marked optional; and the
platform secret `aws-access-token` is the last entry and is not optional. -/
theorem c1_secret_ordering (c : Claim) :
    (composeEnvFrom c).length = (setUserSecrets c).length + 1 ∧
    (composeEnvFrom c).take (setUserSecrets c).length
      = (setUserSecrets c).map (fun n => { name := n, optional := true }) ∧
    (composeEnvFrom c).getLast?
      = some { name := platformSecretName, optional := false } := by
  refine ⟨by simp [composeEnvFrom], ?_, ?_⟩
  · have hlen :
        ((setUserSecrets c).map
          (fun n => ({ name := n, optional := true } : SecretRef))).length
          = (setUserSecrets c).length := List.length_map _ _
    rw [composeEnvFrom, ← hlen, List.take_left]
  · simp [composeEnvFrom]

/-! ### Claim C2 — round-trip persistence -/

/-- C2: every file with content readable under `/workspace` before pod
deletion is readable byte-identically at the same path after recreation, both
after one recreation cycle and after 3 successive cycles. -/
theorem c2_roundtrip_persistence (s : PodState) (p c : String)
    (h : readFile s.workspace p = some c) :
    readFile (recreateCycle s).workspace p = some c ∧
    readFile (recreateCycle (recreateCycle (recreateCycle s))).workspace p
      = some c := by
  constructor
  · rw [recreateCycle_workspace]; exact h
  · rw [recreateCycle_workspace, recreateCycle_workspace,
      recreateCycle_workspace]
    exact h

/-- C2 witness: a concrete workspace holding `resurrection.txt` keeps its
content across one and three recreation cycles. -/
theorem c2_roundtrip_persistence_witness :
    readFile (recreateCycle
        { workspace := [("resurrection.txt", "resurrection-abc123")]
          store := { backupObject := none } }).workspace "resurrection.txt"
      = some "resurrection-abc123" ∧
    readFile (recreateCycle (recreateCycle (recreateCycle
        { workspace := [("resurrection.txt", "resurrection-abc123")]
          store := { backupObject := none } }))).workspace "resurrection.txt"
      = some "resurrection-abc123" :=
  c2_roundtrip_persistence
    { workspace := [("resurrection.txt", "resurrection-abc123")]
      store := { backupObject := none } }
    "resurrection.txt" "resurrection-abc123" (by decide)

/-! ### Claim C3 — derived resource names -/

/-- C3 counterexample: on the spec's own `acme` example the rendered PVC is
named `acme-workspace`, not `acme`, so not every derived resource's name
equals the claim name. -/
theorem c3_names_counterexample :
    ¬ ((compose acmeClaim).pvc.name = acmeClaim.name ∧
       (compose acmeClaim).scaledObject.name = acmeClaim.name ∧
       (compose acmeClaim).connSecret.name = acmeClaim.name) := by
  intro h
  exact absurd h.1 (by decide)

/-- C3 (amended): every derived resource's name is determined by the claim
name — SandboxTemplate, SandboxWarmPool and ServiceAccount carry the claim
name itself, while the PVC, Service, ScaledObject and connection secret carry
it with the fixed suffixes `-workspace`, `-http`, `-scaler`, `-conn`. -/
theorem c3_derived_names (c : Claim) :
    (compose c).sandboxTemplateName = c.name ∧
    (compose c).warmPoolName = c.name ∧
    (compose c).serviceAccountName = c.name ∧
    (compose c).pvc.name = c.name ++ "-workspace" ∧
    ((compose c).service).map ServiceSpec.name
      = c.httpPort.map (fun _ => c.name ++ "-http") ∧
    (compose c).scaledObject.name = c.name ++ "-scaler" ∧
    (compose c).connSecret.name = c.name ++ "-conn" := by
  refine ⟨rfl, rfl, rfl, rfl, ?_, rfl, rfl⟩
  simp [compose, composeService, Option.map_map]
  rfl

/-! ### Claim C4 — scaler wiring -/

/-- C4: for every claim `X` with nats stream `S` and consumer `Con`, the
generated ScaledObject is named `X-scaler`, targets the SandboxWarmPool `X`
at apiVersion `extensions.agents.x-k8s.io/v1alpha1`, has exactly one trigger
of type nats-jetstream with metadata stream `S` and consumer `Con`, and has
minReplicaCount 0 and maxReplicaCount 1. -/
theorem c4_scaler_wiring (c : Claim) :
    (compose c).scaledObject.name = c.name ++ "-scaler" ∧
    (compose c).scaledObject.scaleTargetRef
      = { apiVersion := "extensions.agents.x-k8s.io/v1alpha1"
          kind := "SandboxWarmPool"
          name := c.name } ∧
    (compose c).scaledObject.triggers
      = [{ type := "nats-jetstream"
           metadata := { stream := c.nats.stream
                         consumer := c.nats.consumer } }] ∧
    (compose c).scaledObject.minReplicaCount = 0 ∧
    (compose c).scaledObject.maxReplicaCount = 1 :=
  ⟨rfl, rfl, rfl, rfl, rfl⟩

/-! ### Claim C5 — hibernation monotonicity -/

/-- C5: from a state where the claim and PVC exist, soft expiry yields the
Warm classification (replicas 0, PVC retained); hard expiry after that yields
the Cold classification (claim absent and, within the transition timeout, PVC
absent); and no transition other than hard expiry ever destroys the PVC. -/
theorem c5_hibernation_monotonicity (s : ClusterState)
    (hclaim : s.claimExists = true) (hpvc : s.pvcExists = true) :
    isWarm (applyTransition .softExpire s) ∧
    (applyTransition .softExpire s).replicas = 0 ∧
    (applyTransition .softExpire s).pvcExists = true ∧
    isCold (applyTransition .hardExpire (applyTransition .softExpire s)) ∧
    (∀ (t : Transition) (s' : ClusterState),
      (applyTransition t s').pvcExists = false →
        t = .hardExpire ∨ s'.pvcExists = false) := by
  refine ⟨⟨hclaim, rfl, hpvc⟩, rfl, hpvc, ⟨rfl, rfl⟩, ?_⟩
  intro t s' h
  cases t with
  | softExpire => exact Or.inr h
  | hardExpire => exact Or.inl rfl
  | scaleUp => exact Or.inr h

/-- C5 witness: the transitions applied to a concrete Active state (claim
present, 1 replica, PVC bound). -/
theorem c5_hibernation_monotonicity_witness :
    isWarm (applyTransition .softExpire
      { claimExists := true, replicas := 1, pvcExists := true }) ∧
    isCold (applyTransition .hardExpire (applyTransition .softExpire
      { claimExists := true, replicas := 1, pvcExists := true })) := by
  have h := c5_hibernation_monotonicity
    { claimExists := true, replicas := 1, pvcExists := true } rfl rfl
  exact ⟨h.1, h.2.2.2.1⟩

/-! ### Claim C6 — storage sizing -/

/-- C6: for every claim whose storageGB lies within the platform's allowed
range, composition succeeds and the rendered PVC requests exactly
`<storageGB>Gi`, is named `<claim>-workspace`, and has deletion policy
Delete. -/
theorem c6_storage_sizing (minGB maxGB : Nat) (c : Claim)
    (hlo : minGB ≤ c.storageGB) (hhi : c.storageGB ≤ maxGB) :
    composeChecked minGB maxGB c = some (compose c) ∧
    (compose c).pvc.storageRequest = toString c.storageGB ++ "Gi" ∧
    (compose c).pvc.name = c.name ++ "-workspace" ∧
    (compose c).pvc.deletionPolicy = DeletionPolicy.Delete := by
  refine ⟨?_, rfl, rfl, rfl⟩
  simp [composeChecked, hlo, hhi]

/-- C6 witness: the spec's `acme` example with storageGB 10 inside a 1..100
platform range renders the request string `10Gi`. -/
theorem c6_storage_sizing_witness :
    composeChecked 1 100 acmeClaim = some (compose acmeClaim) ∧
    (compose acmeClaim).pvc.storageRequest = "10Gi" ∧
    (compose acmeClaim).pvc.name = "acme-workspace" :=
  ⟨(c6_storage_sizing 1 100 acmeClaim (by decide) (by decide)).1,
   by decide, by decide⟩

/-! ### Claim C7 — conditional Service -/

/-- C7: a Service is rendered iff the claim's httpPort is set; when set to
`p` it has type ClusterIP, the single port `p`, sessionAffinity the claim's
value defaulting to None, selector `app.kubernetes.io/name: <claim>`, and
metrics-scrape annotations with port `p` and scrape true; without httpPort no
Service is rendered. -/
theorem c7_service_iff_httpPort (c : Claim) :
    (c.httpPort = none → (compose c).service = none) ∧
    (∀ p, c.httpPort = some p →
      (compose c).service = some
        { name := c.name ++ "-http"
          type := "ClusterIP"
          ports := [p]
          sessionAffinity := c.sessionAffinity.getD "None"
          selector := [("app.kubernetes.io/name", c.name)]
          annotations := [("prometheus.io/port", toString p),
                          ("prometheus.io/scrape", "true")] }) := by
  constructor
  · intro h
    simp [compose, composeService, h]
  · intro p h
    simp [compose, composeService, h]

/-- C7 witness: the http test claim (port 8080, ClientIP affinity) gets its
Service; the spec's `acme` example (httpPort unset) gets none. -/
theorem c7_service_iff_httpPort_witness :
    (compose httpClaim).service = some
      { name := "test-http-sandbox-http"
        type := "ClusterIP"
        ports := [8080]
        sessionAffinity := "ClientIP"
        selector := [("app.kubernetes.io/name", "test-http-sandbox")]
        annotations := [("prometheus.io/port", "8080"),
                        ("prometheus.io/scrape", "true")] } ∧
    (compose acmeClaim).service = none := by
  constructor
  · have h := (c7_service_iff_httpPort httpClaim).2 8080 rfl
    rw [h]
    decide
  · exact (c7_service_iff_httpPort acmeClaim).1 rfl

/-! ### Claim C8 — init-container hydration -/

/-- C8: the main container cannot start before the hydration init container
has run; after the init container completes the pod reaches the running phase
over the hydrated volume; when a backup object exists at the claim's key every
file of it is readable from `/workspace` with identical content; when none
exists the volume is left as-is. -/
theorem c8_hydration_order (backupObject : Option Workspace) (vol : Workspace) :
    startMain { phase := .created, vol := vol } = none ∧
    startMain (runInitContainer backupObject { phase := .created, vol := vol })
      = some { phase := .running, vol := hydrate backupObject vol } ∧
    (∀ a, backupObject = some a → ∀ p c, readFile a p = some c →
      readFile
        (runInitContainer backupObject { phase := .created, vol := vol }).vol p
        = some c) ∧
    (backupObject = none →
      (runInitContainer backupObject { phase := .created, vol := vol }).vol
        = vol) := by
  refine ⟨?_, ?_, ?_, ?_⟩
  · simp [startMain]
  · simp [startMain, runInitContainer]
  · intro a ha p c h
    subst ha
    simpa [runInitContainer, hydrate, extractInto] using
      readFile_append_of_some h vol
  · intro h
    subst h
    simp [runInitContainer, hydrate]

/-- C8 witness: hydrating an empty fresh volume from a concrete backup object
makes the archived file readable with its archived content, and a pod that
skipped hydration cannot start its main container. -/
theorem c8_hydration_order_witness :
    startMain { phase := PodPhase.created, vol := ([] : Workspace) } = none ∧
    readFile (runInitContainer
        (some [("hydration-test.txt", "s3-hydration-test-data")])
        { phase := .created, vol := ([] : Workspace) }).vol
      "hydration-test.txt" = some "s3-hydration-test-data" := by
  have h := c8_hydration_order
    (some [("hydration-test.txt", "s3-hydration-test-data")]) []
  exact ⟨h.1,
    h.2.2.1 [("hydration-test.txt", "s3-hydration-test-data")] rfl
      "hydration-test.txt" "s3-hydration-test-data" (by decide)⟩

/-! ### Claim C9 — resurrection identity -/

/-- C9: for two claims sharing name, namespace and httpPort — such as a claim
re-created with the same name after a Cold cycle — the rendered Service name
and the whole connection secret coincide; the connection secret is named
`<claim>-conn`, carries exactly the keys SANDBOX_SERVICE_NAME,
SANDBOX_HTTP_ENDPOINT and SANDBOX_NAMESPACE, and SANDBOX_SERVICE_NAME is the
claim name. -/
theorem c9_resurrection_identity (c1 c2 : Claim)
    (hname : c1.name = c2.name) (hns : c1.nspace = c2.nspace)
    (hport : c1.httpPort = c2.httpPort) :
    ((compose c1).service).map ServiceSpec.name
      = ((compose c2).service).map ServiceSpec.name ∧
    (compose c1).connSecret = (compose c2).connSecret ∧
    (compose c1).connSecret.name = c1.name ++ "-conn" ∧
    (compose c1).connSecret.data.map Prod.fst
      = ["SANDBOX_SERVICE_NAME", "SANDBOX_HTTP_ENDPOINT", "SANDBOX_NAMESPACE"] ∧
    (compose c1).connSecret.data.lookup "SANDBOX_SERVICE_NAME"
      = some c1.name := by
  refine ⟨?_, ?_, rfl, rfl, ?_⟩
  · simp only [compose, composeService, Option.map_map, hname, hport]
    cases c2.httpPort <;> rfl
  · simp [compose, composeConnSecret, hname, hns, hport]
  · simp [compose, composeConnSecret, List.lookup]

/-- C9 witness: the `acme` claim and its Cold-cycle re-creation (same name,
namespace and http exposure, different image, size and secrets) render the
same Service name and an identical connection secret. -/
theorem c9_resurrection_identity_witness :
    ((compose acmeClaim).service).map ServiceSpec.name
      = ((compose acmeClaimRecreated).service).map ServiceSpec.name ∧
    (compose acmeClaim).connSecret = (compose acmeClaimRecreated).connSecret ∧
    (compose acmeClaim).connSecret.name = "acme-conn" ∧
    (compose acmeClaim).connSecret.data.lookup "SANDBOX_SERVICE_NAME"
      = some "acme" := by
  have h := c9_resurrection_identity acmeClaim acmeClaimRecreated rfl rfl rfl
  exact ⟨h.1, h.2.1, by decide, by decide⟩

/-! ### Claim C10 — pod security contexts -/

/-- A container security context that runs as root: runAsNonRoot false,
runAsUser 0, privilege escalation allowed, no capabilities dropped. -/
def runsAsRoot (ctr : ContainerSec) : Prop :=
  ctr.runAsNonRoot = false ∧ ctr.runAsUser = 0 ∧
  ctr.allowPrivilegeEscalation = true ∧ ctr.capabilitiesDrop = []

/-- C10: every rendered pod template runs as root at the pod level
(runAsNonRoot false, runAsUser, runAsGroup and fsGroup all 0) and in all three
containers (init, main, sidecar: runAsNonRoot false, runAsUser 0,
allowPrivilegeEscalation true, no dropped capabilities). -/
theorem c10_security_context (c : Claim) :
    (compose c).podSec.podSecurity.runAsNonRoot = false ∧
    (compose c).podSec.podSecurity.runAsUser = 0 ∧
    (compose c).podSec.podSecurity.runAsGroup = 0 ∧
    (compose c).podSec.podSecurity.fsGroup = 0 ∧
    runsAsRoot (compose c).podSec.initSec ∧
    runsAsRoot (compose c).podSec.mainSec ∧
    runsAsRoot (compose c).podSec.sidecarSec :=
  ⟨rfl, rfl, rfl, rfl,
   ⟨rfl, rfl, rfl, rfl⟩, ⟨rfl, rfl, rfl, rfl⟩, ⟨rfl, rfl, rfl, rfl⟩⟩

end ZeroTouch
